import Mathlib

/-!
Shallow embedding of the core logic of the iot-plant-monitor firmware.

Sources embedded (translated definition by definition from the C++ sources):
* `src/utils/configuration/config.cpp` / `config.h` — `ConfigHandler`
  (`load`, `save`, `clear`, `isConfigured`, `setUnconfigured`, `parseAppCfg`),
  with the NVS `Preferences` collaborator modelled as an in-memory record of
  the five keys the handler uses (the repository's own test mock
  `test/mocks/Preferences.h` gives exactly this semantics).
* `src/tasks/iot/iot_task.cpp` — the connectivity state machine
  (`handleBleCommand`, `handleBleTestingWifi`, `getParam`, `getDeviceId`,
  `generateDeviceTopic`), instrumented with an explicit effect trace so that
  BLE replies, `ConfigHandler::save` calls, store clears and link teardowns
  are observable.
* `src/unnamed/part_008` (plant-state-machine.cpp) and `src/unnamed/part_009`
  (plant-config.h) — the plant health classifier
  (`updatePlantState`, `prv_update_light_tracking`, `prv_is_light_ok`,
  `areSensorsInRange`, `loadThresholdsFromConfig`, `getConfigParam`).

Modelling conventions:
* C `float` values are modelled as `ℚ`.  No claim settled here depends on
  floating-point rounding: the quantities involved are only compared,
  copied, or added, and all concrete inputs used are exactly representable.
* `uint32_t` millisecond clocks are modelled as `ℕ`; `millis() - start`
  is `Nat` subtraction, which agrees with the C `uint32_t` subtraction on
  monotone runs (the only runs the theorems quantify over).  The one place
  a `uint32_t` multiplication can overflow (`elapsed * 100` in the Wi-Fi
  test progress computation) keeps its explicit `% 2 ^ 32`.
* The `uint8_t` counter `daysWithoutEnoughLight` is modelled as `ℕ` with
  the increment taken `% 256`, exactly as the machine executes it.
* Fallible operations return `Option`; C functions with a `bool` result and
  an out-parameter become `Option`-returning functions (or `Bool × _` where
  the C code also leaves observable partial writes behind).
-/

namespace PlantMonitor

/-- `std::vector<float> params` with the rest of `AppConfig` (config.h). -/
structure AppConfig where
  ssid : String
  password : String
  params : List ℚ
  deriving DecidableEq, Repr

/-- `ConfigHandler::kMaxParams = 32` (config.h). -/
def kMaxParams : ℕ := 32

/-- The NVS namespace `appcfg` as the `ConfigHandler` sees it: the five keys
`ok`, `ssid`, `pass`, `p_cnt`, `p_blob`.  `none` means the key is absent.
The blob holds packed floats; it is modelled as the list of floats, one
list entry per 4 stored bytes. -/
structure Prefs where
  okFlag : Option Bool
  ssidKey : Option String
  passKey : Option String
  parCount : Option ℕ
  parBlob : Option (List ℚ)
  deriving DecidableEq, Repr

/-- A namespace no `put` has ever touched (fresh flash / after `clear`). -/
def emptyPrefs : Prefs :=
  { okFlag := none, ssidKey := none, passKey := none,
    parCount := none, parBlob := none }

namespace ConfigHandler

/-- `prefs.getBool(kKeyOk, false)`. -/
def getOk (p : Prefs) : Bool := p.okFlag.getD false

/-- `prefs.getBytes(kKeyParBlob, buf, expected)` returns the number of bytes
copied: `min expected stored` (semantics of the repository's Preferences
mock; a missing key reads 0 bytes).  Byte counts are `4 * floats`. -/
def getBytesLen (p : Prefs) (expected : ℕ) : ℕ :=
  match p.parBlob with
  | none => 0
  | some l => min expected (4 * l.length)

/-- `ConfigHandler::load` (config.cpp lines 4–50).  Returns `some out` where
the C function returns `true` and fills `out`, `none` where it returns
`false`. -/
def load (p : Prefs) : Option AppConfig :=
  if !getOk p then none
  else if p.ssidKey.isNone || p.passKey.isNone then none
  else
    let ssid := p.ssidKey.getD ""
    let password := p.passKey.getD ""
    let count := p.parCount.getD 0
    if count > kMaxParams then none
    else if count = 0 then some { ssid, password, params := [] }
    else
      let expected := 4 * count
      if getBytesLen p expected = expected then
        some { ssid, password,
               params := (p.parBlob.getD []).take count }
      else none

/-- `ConfigHandler::save` (config.cpp lines 52–92).  The C function mutates
the store even on the failing `count > kMaxParams` path (it has already
written `ok := false` and both strings), so the model returns the written
store together with the success flag. -/
def save (cfg : AppConfig) (p : Prefs) : Bool × Prefs :=
  let p := { p with okFlag := some false }
  let p := { p with ssidKey := some cfg.ssid, passKey := some cfg.password }
  let count := cfg.params.length
  if count > kMaxParams then (false, p)
  else
    let p := { p with parCount := some count }
    let p :=
      if count > 0 then { p with parBlob := some cfg.params }
      else { p with parBlob := none }
    (true, { p with okFlag := some true })

/-- `ConfigHandler::clear` (config.cpp lines 94–101): `prefs.clear()` wipes
the namespace. -/
def clear (_p : Prefs) : Prefs := emptyPrefs

/-- `ConfigHandler::isConfigured` (config.cpp lines 103–137). -/
def isConfigured (p : Prefs) : Bool :=
  if !getOk p then false
  else if p.ssidKey.isNone || p.passKey.isNone then false
  else if (p.ssidKey.getD "").length = 0 then false
  else if p.parCount.getD 0 > kMaxParams then false
  else true

/-- `ConfigHandler::setUnconfigured` (config.cpp lines 139–146). -/
def setUnconfigured (p : Prefs) : Prefs :=
  { p with okFlag := some false }

end ConfigHandler

/-! ### The textual configuration parser (`ConfigHandler::parseAppCfg`)

Characters that the token-scanner of this development's tooling treats
specially are produced via `Char.ofNat` (123 `{`, 125 `}`, 34 `"`, 92 `\`). -/

/-- The `{` character. -/
def lbrace : Char := Char.ofNat 123

/-- The `}` character. -/
def rbrace : Char := Char.ofNat 125

/-- The `"` character. -/
def dquote : Char := Char.ofNat 34

/-- The `\` character. -/
def bslash : Char := Char.ofNat 92

/-- C `isspace` on the default locale: space, tab, newline, vertical tab,
form feed, carriage return. -/
def isSpaceC (c : Char) : Bool :=
  c = ' ' || c = '\t' || c = '\n' || c.toNat = 11 || c.toNat = 12 || c = '\r'

/-- `prv_skip_spaces` (config.cpp lines 148–151). -/
def skipSpacesC : List Char → List Char
  | [] => []
  | c :: cs => if isSpaceC c then skipSpacesC cs else c :: cs

/-- `prv_consume_char` (config.cpp lines 153–160): skip spaces, then consume
`ch` if it is next (`some` remainder) or fail (`none`; the C version leaves
`p` at the skipped position, which only the caller's subsequent reads see —
callers re-skip, so dropping that detail is observationally equal). -/
def consumeCharC (ch : Char) (p : List Char) : Option (List Char) :=
  match skipSpacesC p with
  | [] => none
  | c :: cs => if c = ch then some cs else none

/-- Body loop of `prv_parse_quoted_string`: `acc` holds the output read so
far, reversed.  A backslash copies the following character verbatim; a
backslash at end of input is copied literally and the loop then fails for
want of a closing quote, exactly as in the C code. -/
def quotedBody : List Char → List Char → Option (String × List Char)
  | [], _ => none
  | c :: cs, acc =>
    if c = dquote then some (String.mk acc.reverse, cs)
    else if c = bslash then
      match cs with
      | d :: ds => quotedBody ds (d :: acc)
      | [] => quotedBody [] (c :: acc)
    else quotedBody cs (c :: acc)

/-- `prv_parse_quoted_string` (config.cpp lines 162–180). -/
def parseQuotedStringC (p : List Char) : Option (String × List Char) :=
  match skipSpacesC p with
  | [] => none
  | c :: cs => if c = dquote then quotedBody cs [] else none

/-- Value of a digit string. -/
def digitsToNat (ds : List Char) : ℕ :=
  ds.foldl (fun a c => a * 10 + (c.toNat - 48)) 0

/-- `prv_parse_float` (config.cpp lines 182–190), i.e. `std::strtof` followed
by the no-conversion check.  Modelled from the spec: "standard decimal float
parsing with optional sign/exponent" — the decimal forms of `strtof`
(optional sign, digits with optional fraction, optional exponent); the
hexadecimal, infinity and NaN forms of `strtof` are outside the model and
outside every input this development evaluates the parser on.  Returns the
exact rational value. -/
def parseFloatC (p : List Char) : Option (ℚ × List Char) :=
  let p1 := skipSpacesC p
  let sgn : Bool × List Char :=
    match p1 with
    | c :: cs => if c = '-' then (true, cs) else if c = '+' then (false, cs) else (false, p1)
    | [] => (false, [])
  let p2 := sgn.2
  let ip := p2.takeWhile Char.isDigit
  let p3 := p2.dropWhile Char.isDigit
  let hasDot : Bool := match p3 with | c :: _ => c = '.' | [] => false
  let afterDot := if hasDot then p3.tail else p3
  let fd := afterDot.takeWhile Char.isDigit
  let p4 := afterDot.dropWhile Char.isDigit
  if ip.isEmpty && fd.isEmpty then none
  else
    let mant : ℚ := (digitsToNat ip : ℚ) + (digitsToNat fd : ℚ) / ((10 : ℚ) ^ fd.length)
    let signed : ℚ := if sgn.1 then -mant else mant
    let expPart : Option (Int × List Char) :=
      match p4 with
      | c :: cs =>
        if c = 'e' || c = 'E' then
          match cs with
          | d :: ds =>
            if d = '-' then
              match ds.takeWhile Char.isDigit with
              | [] => none
              | l => some (-(digitsToNat l : Int), ds.dropWhile Char.isDigit)
            else if d = '+' then
              match ds.takeWhile Char.isDigit with
              | [] => none
              | l => some ((digitsToNat l : Int), ds.dropWhile Char.isDigit)
            else if d.isDigit then
              some ((digitsToNat (cs.takeWhile Char.isDigit) : Int),
                    cs.dropWhile Char.isDigit)
            else none
          | [] => none
        else none
      | [] => none
    match expPart with
    | some (e, rest) => some (signed * (10 : ℚ) ^ e, rest)
    | none => some (signed, p4)

/-- The `params` array element loop inside `parseAppCfg` (config.cpp lines
237–247): float, then `]` to stop or `,` to continue. -/
def parseFloatListC (fuel : ℕ) (p : List Char) (acc : List ℚ) :
    Option (List ℚ × List Char) :=
  match fuel with
  | 0 => none
  | fuel + 1 =>
    match parseFloatC p with
    | none => none
    | some (v, p1) =>
      match consumeCharC ']' p1 with
      | some p2 => some (acc ++ [v], p2)
      | none =>
        match consumeCharC ',' p1 with
        | none => none
        | some p2 => parseFloatListC fuel p2 (acc ++ [v])

/-- The key/value pair loop of `parseAppCfg` (config.cpp lines 203–262).
Note the separator logic of the source: a `,` is required before a pair
exactly when a `ssid` or `pass` key has already been parsed
(`if (foundSsid || foundPass)`), and is never consumed otherwise.
On the C failure paths the out-parameter keeps whatever had been written
into it; the acceptance boolean, which is all the theorems below consume,
is identical. -/
def parsePairsC (fuel : ℕ) (p : List Char) (cfg : AppConfig)
    (foundSsid foundPass : Bool) : Bool × AppConfig :=
  match fuel with
  | 0 => (false, cfg)
  | fuel + 1 =>
    match consumeCharC rbrace p with
    | some _ => (foundSsid && foundPass, cfg)
    | none =>
      let afterComma : Option (List Char) :=
        if foundSsid || foundPass then consumeCharC ',' p else some p
      match afterComma with
      | none => (false, cfg)
      | some p1 =>
        match parseQuotedStringC p1 with
        | none => (false, cfg)
        | some (key, p2) =>
          match consumeCharC ':' p2 with
          | none => (false, cfg)
          | some p3 =>
            if key = "cmd" then
              match parseQuotedStringC p3 with
              | none => (false, cfg)
              | some (_, p4) => parsePairsC fuel p4 cfg foundSsid foundPass
            else if key = "ssid" then
              match parseQuotedStringC p3 with
              | none => (false, cfg)
              | some (s, p4) =>
                parsePairsC fuel p4 { cfg with ssid := s } true foundPass
            else if key = "pass" then
              match parseQuotedStringC p3 with
              | none => (false, cfg)
              | some (s, p4) =>
                parsePairsC fuel p4 { cfg with password := s } foundSsid true
            else if key = "params" then
              match consumeCharC '[' p3 with
              | none => (false, cfg)
              | some p4 =>
                match consumeCharC ']' p4 with
                | some p5 => parsePairsC fuel p5 cfg foundSsid foundPass
                | none =>
                  match parseFloatListC fuel p4 (cfg.params) with
                  | none => (false, cfg)
                  | some (l, p5) =>
                    parsePairsC fuel p5 { cfg with params := l } foundSsid foundPass
            else
              match skipSpacesC p3 with
              | [] =>
                match parseFloatC p3 with
                | none => (false, cfg)
                | some (_, p4) => parsePairsC fuel p4 cfg foundSsid foundPass
              | c :: _ =>
                if c = dquote then
                  match parseQuotedStringC p3 with
                  | none => (false, cfg)
                  | some (_, p4) => parsePairsC fuel p4 cfg foundSsid foundPass
                else
                  match parseFloatC p3 with
                  | none => (false, cfg)
                  | some (_, p4) => parsePairsC fuel p4 cfg foundSsid foundPass

/-- `ConfigHandler::parseAppCfg` (config.cpp lines 192–265).  The fuel
`msg.length + 1` dominates the pair count, every iteration consuming at
least one character. -/
def parseAppCfg (msg : String) : Bool × AppConfig :=
  let cfg : AppConfig := { ssid := "", password := "", params := [] }
  match consumeCharC lbrace msg.data with
  | none => (false, cfg)
  | some p1 => parsePairsC (msg.length + 1) p1 cfg false false

/-! ### The connectivity state machine (`src/tasks/iot/iot_task.cpp`)

`handleBleCommand` and `handleBleTestingWifi` are embedded with an explicit
effect trace: every BLE reply, every `ConfigHandler::save` call, every store
clear and every teardown of a link becomes a trace element, so that the
temporal claims about them are statements about the trace. -/

/-- `enum class SystemState` (iot_task.cpp lines 52–60). -/
inductive SystemState where
  | BOOT
  | BLE_ADVERTISING
  | BLE_CONFIGURING
  | BLE_TESTING_WIFI
  | WIFI_CONNECTING
  | MQTT_OPERATING
  | ERROR_STATE
  deriving DecidableEq, Repr

/-- Observable effects of one FSM step.  `save` records a call to
`ConfigHandler::save` with its argument; `clearStore` a call to
`ConfigHandler::clear`; `bleTeardown` the `delete bleController`;
`wifiDisconnect` a `WiFi.disconnect()` (or trial-link drop). -/
inductive Effect where
  | ack (cmd : String)
  | status (st : String) (progress : Int)
  | result (cmd : String) (success : Bool) (err : Option String) (msg : Option String)
  | pong
  | info
  | wifiList
  | save (cfg : AppConfig)
  | clearStore
  | bleTeardown
  | wifiDisconnect
  deriving DecidableEq, Repr

/-- Number of `ConfigHandler::save` calls recorded in a trace. -/
def countSaves : List Effect → ℕ
  | [] => 0
  | .save _ :: fx => countSaves fx + 1
  | _ :: fx => countSaves fx

/-- An inbound BLE command after `deserializeJson`: the fields
`handleBleCommand` reads from the `StaticJsonDocument`.  `doc["cmd"] |
"unknown"` is the `cmd` field's default. -/
structure BleDoc where
  cmd : String
  ssid : Option String
  pass : Option String
  params : List ℚ
  deriving DecidableEq, Repr

/-- `parseConfigFromJson` (iot_task.cpp lines 241–259): requires `ssid` and
`pass` keys; `params` is optional (absent modelled as the empty list, which
is also what an absent key yields in the C code). -/
def parseConfigFromJson (doc : BleDoc) : Option AppConfig :=
  match doc.ssid, doc.pass with
  | some s, some p => some { ssid := s, password := p, params := doc.params }
  | _, _ => none

/-- The fields of `SystemContext` (iot_task.cpp lines 62–81) that the
embedded handlers read or write.  `testWifiActive` stands for
`ctx.testWifi != nullptr`. -/
structure SystemContext where
  deviceId : Int
  hasPendingConfig : Bool
  pendingConfig : AppConfig
  pendingCmd : String
  wifiTestStart : ℕ
  testWifiActive : Bool
  lastProgressSent : Int
  deriving DecidableEq, Repr

/-- `getParam` (iot_task.cpp lines 123–128). -/
def getParam (cfg : AppConfig) (index : ℕ) (defaultVal : ℚ) : ℚ :=
  match cfg.params.get? index with
  | some v => v
  | none => defaultVal

/-- C truncation of a float toward zero, the effect of
`static_cast<int>` on a (small) float value. -/
def truncToInt (q : ℚ) : Int :=
  if q < 0 then -((-q).floor.toNat : Int) else (q.floor.toNat : Int)

/-- `getDeviceId` (iot_task.cpp lines 131–133):
`static_cast<int>(getParam(cfg, PARAM_DEVICE_ID, 1.0f))` with
`PARAM_DEVICE_ID = 8`. -/
def getDeviceId (cfg : AppConfig) : Int :=
  truncToInt (getParam cfg 8 1)

/-- Decimal digits of `n`, zero-padded on the left to width 3 — the
`%03d` conversion of `snprintf` for the values in range. -/
def pad3 (n : Int) : String :=
  let digits := toString n.natAbs
  let padded :=
    if digits.length ≥ 3 then digits
    else String.mk (List.replicate (3 - digits.length) '0') ++ digits
  if n < 0 then "-" ++ padded else padded

/-- `generateDeviceTopic` (iot_task.cpp lines 351–355). -/
def generateDeviceTopic (deviceID : Int) : String :=
  "plantform/esp32_" ++ pad3 deviceID ++ "/telemetry"

/-- Result of one `handleBleCommand` / `handleBleTestingWifi` step: next
state, updated context, updated persistent store, and the effect trace of
the step, in program order. -/
structure StepResult where
  state : SystemState
  ctx : SystemContext
  store : Prefs
  fx : List Effect
  deriving Repr

/-- `handleBleCommand` (iot_task.cpp lines 261–345), dispatching on the
already-deserialized document (`deserializeJson` itself is the external
ArduinoJson collaborator; the malformed-JSON early exit is not part of any
claim settled here). -/
def handleBleCommand (ctx : SystemContext) (store : Prefs) (doc : BleDoc) :
    StepResult :=
  if doc.cmd = "ping" then
    { state := .BLE_CONFIGURING, ctx, store, fx := [.pong] }
  else if doc.cmd = "wifi_scan" then
    { state := .BLE_CONFIGURING, ctx, store, fx := [.ack "wifi_scan", .wifiList] }
  else if doc.cmd = "get_info" then
    { state := .BLE_CONFIGURING, ctx, store, fx := [.info] }
  else if doc.cmd = "config" then
    match parseConfigFromJson doc with
    | some cfg =>
      let saved := ConfigHandler.save cfg store
      if saved.1 then
        { state := .BLE_TESTING_WIFI,
          ctx := { ctx with
                   deviceId := getDeviceId cfg,
                   pendingCmd := "config",
                   hasPendingConfig := true,
                   pendingConfig := cfg },
          store := saved.2,
          fx := [.ack "config", .status "saving_config" (-1), .save cfg,
                 .status "connecting_wifi" 0] }
      else
        { state := .BLE_CONFIGURING, ctx, store := saved.2,
          fx := [.ack "config", .status "saving_config" (-1), .save cfg,
                 .result "config" false (some "save_failed") (some "Saving Error NVS")] }
    | none =>
      { state := .BLE_CONFIGURING, ctx, store,
        fx := [.result "config" false (some "invalid_params") (some "Missing parameters")] }
  else if doc.cmd = "test_wifi" then
    match doc.ssid, doc.pass with
    | some s, some p =>
      { state := .BLE_TESTING_WIFI,
        ctx := { ctx with
                 pendingConfig := { ssid := s, password := p, params := [] },
                 pendingCmd := "test_wifi",
                 hasPendingConfig := false },
        store,
        fx := [.ack "test_wifi"] }
    | _, _ =>
      { state := .BLE_CONFIGURING, ctx, store,
        fx := [.result "test_wifi" false (some "invalid_params")
                 (some "missing SSID or password")] }
  else if doc.cmd = "reset" then
    { state := .BLE_ADVERTISING,
      ctx := { ctx with deviceId := 1 },
      store := ConfigHandler.clear store,
      fx := [.ack "reset", .clearStore, .result "reset" true none none] }
  else
    { state := .BLE_CONFIGURING, ctx, store,
      fx := [.result doc.cmd false (some "unknown_cmd") (some "Unknown command")] }

/-- `WIFI_TEST_TIMEOUT_MS` (iot_task.cpp line 28). -/
def WIFI_TEST_TIMEOUT_MS : ℕ := 15000

/-- C `int` division by 20, truncating toward zero (`progress / 20` and
`ctx.lastProgressSent / 20`, where the latter can be `-1`). -/
def cDiv20 (x : Int) : Int :=
  if x < 0 then -((x.natAbs / 20 : ℕ) : Int) else ((x.natAbs / 20 : ℕ) : Int)

/-- Per-tick environment of `handleBleTestingWifi`: the `millis()` reading
and whether `testWifi->isConnected()` reports an established trial link. -/
structure TestEnv where
  now : ℕ
  connected : Bool
  deriving DecidableEq, Repr

/-- `handleBleTestingWifi` (iot_task.cpp lines 473–547).  `millis()` is read
several times in one pass of the C code; the model supplies the single
tick-local value `e.now` for all of them.  `elapsed` is the `uint32`
difference, which on monotone runs equals `Nat` subtraction; the `uint32`
product `elapsed * 100` keeps its `% 2 ^ 32`.  The two in-place context
mutations of the C code (first-tick initialization, lines 475–481, and the
progress bookkeeping, lines 487–491) are rendered as per-field
conditionals (`start`, `lps`, `lps2`); each exit path then writes the same
context fields the C code has mutated by that point. -/
def handleBleTestingWifi (ctx : SystemContext) (store : Prefs) (e : TestEnv) :
    StepResult :=
  let start := if ctx.testWifiActive then ctx.wifiTestStart else e.now
  let lps := if ctx.testWifiActive then ctx.lastProgressSent else -1
  let elapsed := e.now - start
  let progress : Int := min ((elapsed * 100 % 2 ^ 32) / WIFI_TEST_TIMEOUT_MS : ℕ) 99
  let sendProg : Bool := decide (cDiv20 progress ≠ cDiv20 lps)
  let progressFx : List Effect :=
    if sendProg then [.status "connecting_wifi" progress] else []
  let lps2 := if sendProg then progress else lps
  if e.connected then
    if ctx.hasPendingConfig then
      { state := .MQTT_OPERATING,
        ctx := { ctx with hasPendingConfig := false, wifiTestStart := start, lastProgressSent := lps2, testWifiActive := false },
        store,
        fx := progressFx ++ [.status "wifi_connected" 100, .result ctx.pendingCmd true none none, .bleTeardown] }
    else
      { state := .BLE_CONFIGURING,
        ctx := { ctx with wifiTestStart := start, lastProgressSent := lps2, testWifiActive := false },
        store,
        fx := progressFx ++ [.status "wifi_connected" 100, .result ctx.pendingCmd true none none, .wifiDisconnect] }
  else if WIFI_TEST_TIMEOUT_MS < elapsed then
    if ctx.hasPendingConfig then
      { state := .BLE_CONFIGURING,
        ctx := { ctx with hasPendingConfig := false, wifiTestStart := start, lastProgressSent := lps2, testWifiActive := false },
        store := ConfigHandler.clear store,
        fx := progressFx ++ [.result ctx.pendingCmd false (some "wifi_timeout") (some "Connessione WiFi fallita"), .wifiDisconnect, .clearStore] }
    else
      { state := .BLE_CONFIGURING,
        ctx := { ctx with wifiTestStart := start, lastProgressSent := lps2, testWifiActive := false },
        store,
        fx := progressFx ++ [.result ctx.pendingCmd false (some "wifi_timeout") (some "Connessione WiFi fallita"), .wifiDisconnect] }
  else
    { state := .BLE_TESTING_WIFI,
      ctx := { ctx with wifiTestStart := start, lastProgressSent := lps2, testWifiActive := true },
      store, fx := progressFx }

/-- Iterated `handleBleTestingWifi` ticks: processes environments until the
state machine leaves `BLE_TESTING_WIFI` (or the tick list ends), collecting
the trace. -/
def runTestingWifi : SystemContext → Prefs → List TestEnv → StepResult
  | ctx, store, [] => { state := .BLE_TESTING_WIFI, ctx, store, fx := [] }
  | ctx, store, e :: es =>
    let r := handleBleTestingWifi ctx store e
    if r.state = .BLE_TESTING_WIFI then
      let r2 := runTestingWifi r.ctx r.store es
      { r2 with fx := r.fx ++ r2.fx }
    else r

/-- One whole command handling: `handleBleCommand` on `doc` followed, when
it hands over to `BLE_TESTING_WIFI`, by the testing-Wi-Fi ticks `envs`. -/
def commandRun (ctx : SystemContext) (store : Prefs) (doc : BleDoc)
    (envs : List TestEnv) : StepResult :=
  let r := handleBleCommand ctx store doc
  if r.state = .BLE_TESTING_WIFI then
    let r2 := runTestingWifi r.ctx r.store envs
    { r2 with fx := r.fx ++ r2.fx }
  else r

/-! ### The plant health classifier (`src/unnamed/part_008`, with the
constants of `src/unnamed/part_009`) -/

/-- `STATE_DEBOUNCE_MS = STATE_DEBOUNCE_MINUTES * 60 * 1000` with
`STATE_DEBOUNCE_MINUTES = 1` (plant-config.h). -/
def STATE_DEBOUNCE_MS : ℕ := 60000

/-- `LIGHT_ANGRY_DAYS` (plant-config.h). -/
def LIGHT_ANGRY_DAYS : ℕ := 1

/-- `LIGHT_DYING_DAYS` (plant-config.h). -/
def LIGHT_DYING_DAYS : ℕ := 2

/-- `LIGHT_DEBUG_INTERVAL_MS = 3 * 60 * 1000` (plant-config.h). -/
def LIGHT_DEBUG_INTERVAL_MS : ℕ := 180000

/-- `enum class PlantState`. -/
inductive PlantState where
  | PLANT_HAPPY
  | PLANT_ANGRY
  | PLANT_DYING
  deriving DecidableEq, Repr

/-- `PlantThresholds`. -/
structure PlantThresholds where
  tempMin : ℚ
  tempMax : ℚ
  humidityMin : ℚ
  humidityMax : ℚ
  moistureMin : ℚ
  moistureMax : ℚ
  lightMin : ℚ
  lightMax : ℚ
  deriving DecidableEq, Repr

/-- `struct SensorData` (sensor-task.h). -/
structure SensorData where
  temperature : ℚ
  humidity : ℚ
  moisture : ℚ
  lightDetected : Bool
  deriving DecidableEq, Repr

/-- `struct LightTracking` (part_008 lines 27–34).
`daysWithoutEnoughLight` is a `uint8_t`; the model keeps it in `ℕ` and
takes the increment `% 256`, the machine semantics. -/
structure LightTracking where
  accumulatedHours : ℚ
  lastDayOfYear : Int
  daysWithoutEnoughLight : ℕ
  lastUpdateMs : ℕ
  lastDebugPrintMs : ℕ
  initialized : Bool
  deriving DecidableEq, Repr

/-- The `plant_light` NVS namespace: keys `accum_hours`, `last_day`,
`days_no_light` (`none` = key absent, read through its default). -/
structure LightNvs where
  accumHours : Option ℚ
  lastDay : Option Int
  daysNoLight : Option ℕ
  deriving DecidableEq, Repr

/-- A `plant_light` namespace nothing was ever written to. -/
def emptyLightNvs : LightNvs :=
  { accumHours := none, lastDay := none, daysNoLight := none }

/-- The static state of plant-state-machine.cpp (part_008 lines 16–37):
classifier state, lazily loaded thresholds (`s_thresholdsLoaded` and
`s_thresholds` fused into an `Option`), debounce trackers, dying-timer
started flag, light tracking, and the `plant_light` NVS contents. -/
structure PlantWorld where
  currentState : PlantState
  thresholds : Option PlantThresholds
  lastAllOk : Bool
  lastConditionChangeTime : ℕ
  timerStarted : Bool
  light : LightTracking
  nvs : LightNvs
  deriving DecidableEq, Repr

/-- The static state right after boot and `initPlantStateMachine`
(part_008 lines 16–37 and 226–253), over the given persisted
`plant_light` contents. -/
def plantInit (nvs : LightNvs) : PlantWorld :=
  { currentState := .PLANT_HAPPY,
    thresholds := none,
    lastAllOk := true,
    lastConditionChangeTime := 0,
    timerStarted := false,
    light := { accumulatedHours := 0, lastDayOfYear := -1,
               daysWithoutEnoughLight := 0, lastUpdateMs := 0,
               lastDebugPrintMs := 0, initialized := false },
    nvs }

/-- Per-tick environment of `updatePlantState`: the collaborator results
one pass of the C code observes.  `cfgLoad` is the `ConfigHandler::load`
result, `sensor` the `getLatestSensorData` result, `internet` the
`WiFi.status() == WL_CONNECTED` check, `timeValid`/`dayOfYear` the
network-time reading (`time(&now)` at least 2000-01-01, and `tm_yday`),
`nowMs` the tick-local `millis()` value, `dyingTimerFired` the
`s_dyingTimer->take()` result. -/
structure PlantTickEnv where
  cfgLoad : Option AppConfig
  sensor : Option SensorData
  internet : Bool
  timeValid : Bool
  dayOfYear : ℕ
  nowMs : ℕ
  dyingTimerFired : Bool
  deriving DecidableEq, Repr

/-- `getConfigParam` (ble-protocol.cpp lines 424–430). -/
def getConfigParam (cfg : AppConfig) (index : ℕ) (defaultVal : ℚ) : ℚ :=
  match cfg.params.get? index with
  | some v => v
  | none => defaultVal

/-- `loadThresholdsFromConfig` (part_008 lines 369–388): `none` when fewer
than 8 params (the C function then returns `false` without writing the out
parameter). -/
def loadThresholdsFromConfig (cfg : AppConfig) : Option PlantThresholds :=
  if cfg.params.length < 8 then none
  else some
    { tempMin := getConfigParam cfg 1 15,
      tempMax := getConfigParam cfg 2 30,
      humidityMin := getConfigParam cfg 3 30,
      humidityMax := getConfigParam cfg 4 80,
      moistureMin := getConfigParam cfg 5 20,
      moistureMax := getConfigParam cfg 6 80,
      lightMin := getConfigParam cfg 7 8,
      lightMax := 24 }

/-- `areSensorsInRange` (part_008 lines 390–398). -/
def areSensorsInRange (data : SensorData) (th : PlantThresholds) : Bool :=
  (th.tempMin ≤ data.temperature && data.temperature ≤ th.tempMax) &&
  (th.humidityMin ≤ data.humidity && data.humidity ≤ th.humidityMax) &&
  (th.moistureMin ≤ data.moisture && data.moisture ≤ th.moistureMax)

/-- `prv_is_light_ok` (part_008 lines 92–103). -/
def prv_is_light_ok (lt : LightTracking) : Bool :=
  if !lt.initialized then true
  else if LIGHT_ANGRY_DAYS ≤ lt.daysWithoutEnoughLight then false
  else true

/-- `prv_update_light_tracking` (part_008 lines 108–196).  The sensor
reading the C code re-fetches inside this function is the same tick's
`getLatestSensorData` value, i.e. `e.sensor`.  Serial prints are dropped;
their timing state `lastDebugPrintMs` is kept.  The accumulation block
(lines 155–195) is rendered as per-field updates reading the pre-update
fields, matching the C statement order (the hour delta uses the previous
`lastUpdateMs`, the debug-print check the previous `lastDebugPrintMs`). -/
def prv_update_light_tracking (lt : LightTracking) (nvs : LightNvs)
    (lightMin : ℚ) (e : PlantTickEnv) : LightTracking × LightNvs :=
  if !e.internet then (lt, nvs)
  else
    let lt :=
      if !lt.initialized then
        { accumulatedHours := nvs.accumHours.getD 0,
          lastDayOfYear := nvs.lastDay.getD (-1),
          daysWithoutEnoughLight := nvs.daysNoLight.getD 0,
          lastUpdateMs := e.nowMs,
          lastDebugPrintMs := 0,
          initialized := true }
      else lt
    if !e.timeValid then (lt, nvs)
    else
      let currentDay : Int := (e.dayOfYear : Int)
      let rolled : LightTracking × LightNvs :=
        if lt.lastDayOfYear ≠ -1 ∧ currentDay ≠ lt.lastDayOfYear then
          let days :=
            if lt.accumulatedHours < lightMin then
              (lt.daysWithoutEnoughLight + 1) % 256
            else 0
          let lt := { lt with daysWithoutEnoughLight := days,
                              accumulatedHours := 0,
                              lastDayOfYear := currentDay }
          (lt, { accumHours := some lt.accumulatedHours,
                 lastDay := some lt.lastDayOfYear,
                 daysNoLight := some lt.daysWithoutEnoughLight })
        else if lt.lastDayOfYear = -1 then
          ({ lt with lastDayOfYear := currentDay }, nvs)
        else (lt, nvs)
      let lt := rolled.1
      let nvs := rolled.2
      match e.sensor with
      | none => (lt, nvs)
      | some data =>
        let accum2 :=
          if data.lightDetected then
            lt.accumulatedHours + ((e.nowMs - lt.lastUpdateMs : ℕ) : ℚ) / 3600000
          else lt.accumulatedHours
        let dbg2 :=
          if lt.lastDebugPrintMs = 0 ∨
             LIGHT_DEBUG_INTERVAL_MS ≤ e.nowMs - lt.lastDebugPrintMs then
            e.nowMs
          else lt.lastDebugPrintMs
        ({ lt with accumulatedHours := accum2, lastUpdateMs := e.nowMs,
                   lastDebugPrintMs := dbg2 }, nvs)

/-- The guard-and-preparation phase of `updatePlantState` (part_008 lines
255–293): lazy threshold loading, the sensor-availability guard, the light
tracking update, and the computation of `allOk`.  Returns the updated
world and `some allOk` when the transition logic will run, `none` when the
C function returns early. -/
def plantPrePhase (w : PlantWorld) (e : PlantTickEnv) :
    PlantWorld × Option Bool :=
  let w :=
    match w.thresholds with
    | some _ => w
    | none =>
      match e.cfgLoad with
      | none => w
      | some cfg =>
        match loadThresholdsFromConfig cfg with
        | none => w
        | some th => { w with thresholds := some th }
  match w.thresholds with
  | none => (w, none)
  | some th =>
    match e.sensor with
    | none => (w, none)
    | some data =>
      let updated := prv_update_light_tracking w.light w.nvs th.lightMin e
      let w := { w with light := updated.1, nvs := updated.2 }
      let sensorsInRange := areSensorsInRange data th
      let lightOk := prv_is_light_ok w.light
      (w, some (sensorsInRange && lightOk))

/-- The debounced transition logic of `updatePlantState` (part_008 lines
295–362).  `prv_start_dying_timer` / `prv_stop_dying_timer` surface as the
`timerStarted` flag (the timer object exists after a successful
`initPlantStateMachine`); the timer's `take()` result is the environment
bit `timerFired`.  The C code writes `s_lastAllOk`/`s_lastConditionChangeTime`
only when the condition flips; since `s_lastAllOk` already equals `allOk`
otherwise, each exit path here writes `lastAllOk := allOk` and the
flip-conditional `lastChange` unconditionally — the same state. -/
def plantSmPhase (w : PlantWorld) (allOk : Bool) (now : ℕ)
    (timerFired : Bool) : PlantWorld :=
  let lastChange := if allOk ≠ w.lastAllOk then now else w.lastConditionChangeTime
  let timeInCondition := now - lastChange
  match w.currentState with
  | .PLANT_HAPPY =>
    if allOk = false ∧ STATE_DEBOUNCE_MS ≤ timeInCondition then
      { w with currentState := .PLANT_ANGRY, timerStarted := true, lastAllOk := allOk, lastConditionChangeTime := lastChange }
    else
      { w with lastAllOk := allOk, lastConditionChangeTime := lastChange }
  | .PLANT_ANGRY =>
    if allOk = true ∧ STATE_DEBOUNCE_MS ≤ timeInCondition then
      { w with currentState := .PLANT_HAPPY, timerStarted := false, lastAllOk := allOk, lastConditionChangeTime := lastChange }
    else if allOk = false then
      if timerFired ∨
         (w.light.initialized ∧
          LIGHT_DYING_DAYS ≤ w.light.daysWithoutEnoughLight) then
        { w with currentState := .PLANT_DYING, lastAllOk := allOk, lastConditionChangeTime := lastChange }
      else
        { w with lastAllOk := allOk, lastConditionChangeTime := lastChange }
    else
      { w with lastAllOk := allOk, lastConditionChangeTime := lastChange }
  | .PLANT_DYING =>
    if allOk = true ∧ STATE_DEBOUNCE_MS ≤ timeInCondition then
      { w with currentState := .PLANT_HAPPY, timerStarted := false, lastAllOk := allOk, lastConditionChangeTime := lastChange }
    else
      { w with lastAllOk := allOk, lastConditionChangeTime := lastChange }

/-- `updatePlantState` (part_008 lines 255–363): one classifier tick. -/
def updatePlantState (w : PlantWorld) (e : PlantTickEnv) : PlantWorld :=
  match plantPrePhase w e with
  | (w1, none) => w1
  | (w1, some allOk) => plantSmPhase w1 allOk e.nowMs e.dyingTimerFired

/-- The `allOk` bit a tick computes, `none` when the tick returns before
the transition logic. -/
def allOkAt (w : PlantWorld) (e : PlantTickEnv) : Option Bool :=
  (plantPrePhase w e).2

/-- A run of classifier ticks (the UI task calling `updatePlantState` once
per scheduler tick). -/
def runPlant (w : PlantWorld) (ticks : List PlantTickEnv) : PlantWorld :=
  ticks.foldl updatePlantState w

/-- `getCurrentPlantState` (part_008 lines 365–367). -/
def getCurrentPlantState (w : PlantWorld) : PlantState :=
  w.currentState

/-! ### Concrete fixtures used by witnesses and counterexamples -/

/-- A context as `IoTTask` initializes it (iot_task.cpp lines 658–664). -/
def fixtureCtx : SystemContext :=
  { deviceId := 1, hasPendingConfig := false,
    pendingConfig := { ssid := "", password := "", params := [] },
    pendingCmd := "", wifiTestStart := 0, testWifiActive := false,
    lastProgressSent := -1 }

/-- A well-formed `config` command document. -/
def configDocFix : BleDoc :=
  { cmd := "config", ssid := some "net", pass := some "pw", params := [] }

/-- A well-formed `test_wifi` command document. -/
def testWifiDocFix : BleDoc :=
  { cmd := "test_wifi", ssid := some "net", pass := some "pw", params := [] }

/-- A configuration carrying the 8 threshold params
(indices 1–7 are the thresholds, index 0 the plant type). -/
def cfg8Fix : AppConfig :=
  { ssid := "n", password := "p", params := [0, 15, 30, 30, 80, 20, 80, 8] }

/-- An in-range reading with no light. -/
def darkSensorFix : SensorData :=
  { temperature := 20, humidity := 50, moisture := 50, lightDetected := false }

/-- A reading with the temperature far out of range. -/
def hotSensorFix : SensorData :=
  { temperature := 100, humidity := 50, moisture := 50, lightDetected := false }

/-- Day-rollover environment for tick `i`: connected, time valid, a new
calendar day each tick, never enough light. -/
def c8Env (i : ℕ) : PlantTickEnv :=
  { cfgLoad := some cfg8Fix, sensor := some darkSensorFix, internet := true,
    timeValid := true, dayOfYear := i, nowMs := i * 1000,
    dyingTimerFired := false }

/-- The first `n` day-rollover environments. -/
def c8Ticks (n : ℕ) : List PlantTickEnv := (List.range n).map c8Env

/-- An offline out-of-range tick at time `t` (no light tracking, sensors
out of range). -/
def hotTick (t : ℕ) : PlantTickEnv :=
  { cfgLoad := some cfg8Fix, sensor := some hotSensorFix, internet := false,
    timeValid := false, dayOfYear := 0, nowMs := t, dyingTimerFired := false }

/-- A tick on which no sensor snapshot is available. -/
def noSensorTick : PlantTickEnv :=
  { cfgLoad := some cfg8Fix, sensor := none, internet := false,
    timeValid := false, dayOfYear := 0, nowMs := 0, dyingTimerFired := false }

end PlantMonitor

namespace PlantMonitor

/-! ## Theorems -/

/-- C3: for every `AppConfig` with at most 32 params, a `ConfigHandler::save`
succeeds and a subsequent `ConfigHandler::load` returns true with
byte-identical ssid and password and element-wise equal params. -/
theorem c3_save_load_roundtrip (cfg : AppConfig) (p : Prefs)
    (h : cfg.params.length ≤ kMaxParams) :
    (ConfigHandler.save cfg p).1 = true ∧
    ConfigHandler.load (ConfigHandler.save cfg p).2 = some cfg := by
  obtain ⟨s, pw, ps⟩ := cfg
  simp only [AppConfig.params] at h
  have hnot : ¬ ps.length > kMaxParams := by omega
  by_cases h0 : ps.length = 0
  · have hnil : ps = [] := List.length_eq_zero.mp h0
    subst hnil
    constructor
    · simp [ConfigHandler.save, hnot]
    · simp [ConfigHandler.save, ConfigHandler.load, ConfigHandler.getOk, hnot]
  · have hpos : 0 < ps.length := Nat.pos_of_ne_zero h0
    constructor
    · simp [ConfigHandler.save, hnot]
    · simp [ConfigHandler.save, ConfigHandler.load, ConfigHandler.getOk,
        ConfigHandler.getBytesLen, hnot, hpos, h0]

/-- Witness for C3 at a concrete configuration. -/
theorem c3_save_load_roundtrip_witness :
    ConfigHandler.load
        (ConfigHandler.save
          { ssid := "TestSSID", password := "TestPass", params := [1, 2, 3] }
          emptyPrefs).2 =
      some { ssid := "TestSSID", password := "TestPass", params := [1, 2, 3] } :=
  (c3_save_load_roundtrip _ emptyPrefs (by decide)).2

/-- C4: `parseAppCfg`'s separator handling contradicts the documented
grammar.  The grammar-conforming canonical payload
`{"cmd":"config","ssid":"a","pass":"b"}` (the §6.2 wire format, with both
required keys) is rejected, because the code requires a `,` between pairs
exactly when a `ssid` or `pass` key has already been parsed — and rejects
one otherwise; dropping the first comma (grammar-invalid input) makes the
same payload parse. -/
theorem c4_parser_comma_bug :
    (parseAppCfg "\x7b\"cmd\":\"config\",\"ssid\":\"a\",\"pass\":\"b\"\x7d").1 = false ∧
    (parseAppCfg "\x7b\"cmd\":\"config\"\"ssid\":\"a\",\"pass\":\"b\"\x7d").1 = true := by
  constructor <;> rfl

/-- Counterexample to C5 as stated: `ConfigHandler::save` succeeds on a
configuration with an empty ssid, yet `isConfigured` — which additionally
requires a non-empty ssid — still reports false immediately afterwards. -/
theorem c5_claim_counterexample :
    (ConfigHandler.save { ssid := "", password := "pw", params := [] }
        emptyPrefs).1 = true ∧
    ConfigHandler.isConfigured
        (ConfigHandler.save { ssid := "", password := "pw", params := [] }
          emptyPrefs).2 = false := by
  constructor <;> rfl

/-- C5 (amended): `isConfigured` is false before any save; it is true
immediately after a successful save of a configuration whose ssid is
non-empty; and it is false after `clear()` or `setUnconfigured()`. -/
theorem c5_isConfigured_lifecycle :
    ConfigHandler.isConfigured emptyPrefs = false ∧
    (∀ cfg p, cfg.ssid ≠ "" → (ConfigHandler.save cfg p).1 = true →
       ConfigHandler.isConfigured (ConfigHandler.save cfg p).2 = true) ∧
    (∀ p, ConfigHandler.isConfigured (ConfigHandler.clear p) = false) ∧
    (∀ p, ConfigHandler.isConfigured (ConfigHandler.setUnconfigured p) = false) := by
  refine ⟨rfl, ?_, fun p => rfl, fun p => rfl⟩
  intro cfg p hssid hsave
  obtain ⟨s, pw, ps⟩ := cfg
  simp only at hssid
  have hlen : s.length ≠ 0 := fun h => hssid (by
    cases s with
    | mk data =>
      cases data with
      | nil => rfl
      | cons c cs => simp [String.length] at h)
  by_cases hcnt : ps.length > kMaxParams
  · simp [ConfigHandler.save, hcnt] at hsave
  · by_cases hpos : 0 < ps.length
    · simp [ConfigHandler.save, ConfigHandler.isConfigured,
        ConfigHandler.getOk, hcnt, hpos, hlen]
    · simp [ConfigHandler.save, ConfigHandler.isConfigured,
        ConfigHandler.getOk, hcnt, hpos, hlen]

/-- Witness for C5 (amended) at a concrete configuration. -/
theorem c5_isConfigured_lifecycle_witness :
    ConfigHandler.isConfigured
        (ConfigHandler.save { ssid := "Net", password := "pw", params := [] }
          emptyPrefs).2 = true :=
  c5_isConfigured_lifecycle.2.1
    { ssid := "Net", password := "pw", params := [] } emptyPrefs
    (by decide) (by decide)

/-- C6: from the Configuring state, a `reset` command — whatever the prior
context or store contents — sends an ack and `result(success=true)`, clears
the whole persistent namespace, resets the device id to its default 1, and
hands the state machine to Advertising. -/
theorem c6_reset_command (ctx : SystemContext) (store : Prefs) (doc : BleDoc)
    (h : doc.cmd = "reset") :
    handleBleCommand ctx store doc =
      { state := .BLE_ADVERTISING,
        ctx := { ctx with deviceId := 1 },
        store := emptyPrefs,
        fx := [.ack "reset", .clearStore, .result "reset" true none none] } := by
  simp [handleBleCommand, h, ConfigHandler.clear]

/-- Witness for C6 at a concrete context, store and document. -/
theorem c6_reset_command_witness :
    handleBleCommand fixtureCtx
        (ConfigHandler.save cfg8Fix emptyPrefs).2
        { cmd := "reset", ssid := none, pass := none, params := [] } =
      { state := .BLE_ADVERTISING,
        ctx := { fixtureCtx with deviceId := 1 },
        store := emptyPrefs,
        fx := [.ack "reset", .clearStore, .result "reset" true none none] } :=
  c6_reset_command fixtureCtx _ _ rfl

/-- C10: when fewer than 9 params are loaded, the device id defaults to 1
and the telemetry topic is `plantform/esp32_001/telemetry`; when params
index 8 is present it is used instead, truncated to an integer. -/
theorem c10_device_id_default (cfg : AppConfig) :
    (cfg.params.length < 9 →
       getDeviceId cfg = 1 ∧
       generateDeviceTopic (getDeviceId cfg) = "plantform/esp32_001/telemetry") ∧
    (∀ q, cfg.params.get? 8 = some q → getDeviceId cfg = truncToInt q) := by
  constructor
  · intro h
    have hnone : cfg.params[8]? = none := by
      rw [List.getElem?_eq_none_iff]; omega
    have h1 : getDeviceId cfg = 1 := by
      simp [getDeviceId, getParam, hnone]
      norm_num [truncToInt]
      decide
    exact ⟨h1, by rw [h1]; rfl⟩
  · intro q hq
    rw [List.get?_eq_getElem?] at hq
    simp [getDeviceId, getParam, hq]

/-- Witness for C10: a config with no params defaults to device id 1 and
the default telemetry topic, and one with a ninth param uses it. -/
theorem c10_device_id_default_witness :
    (getDeviceId { ssid := "n", password := "p", params := [] } = 1 ∧
     generateDeviceTopic
        (getDeviceId { ssid := "n", password := "p", params := [] }) =
       "plantform/esp32_001/telemetry") ∧
    getDeviceId { ssid := "n", password := "p",
                  params := [0, 1, 2, 3, 4, 5, 6, 7, 42] } = truncToInt 42 :=
  ⟨(c10_device_id_default _).1 (by decide),
   (c10_device_id_default _).2 42 (by decide)⟩

/-- Save calls in a concatenated trace. -/
lemma countSaves_append (a b : List Effect) :
    countSaves (a ++ b) = countSaves a + countSaves b := by
  induction a with
  | nil => simp [countSaves]
  | cons x l ih =>
    cases x <;> (simp [countSaves, ih]; try omega)

/-- A single `handleBleTestingWifi` tick performs no `ConfigHandler::save`
call, whatever the context, store and environment. -/
lemma countSaves_testing_tick (ctx : SystemContext) (store : Prefs)
    (e : TestEnv) : countSaves (handleBleTestingWifi ctx store e).fx = 0 := by
  simp only [handleBleTestingWifi]
  split_ifs <;> rfl

/-- No sequence of `handleBleTestingWifi` ticks ever performs a
`ConfigHandler::save` call. -/
lemma countSaves_runTestingWifi (envs : List TestEnv) :
    ∀ (ctx : SystemContext) (store : Prefs),
      countSaves (runTestingWifi ctx store envs).fx = 0 := by
  induction envs with
  | nil => intro ctx store; rfl
  | cons e es ih =>
    intro ctx store
    simp only [runTestingWifi]
    split
    · simp [countSaves_append, countSaves_testing_tick, ih]
    · exact countSaves_testing_tick ctx store e

/-- C1 (amended): a whole command handling — the `handleBleCommand`
dispatch plus any subsequent `BLE_TESTING_WIFI` ticks — performs no
`ConfigHandler::save` call for a `test_wifi` command, and exactly one for a
well-formed `config` command; that one call happens already during command
processing (before any trial-connection tick), not upon trial success. -/
theorem c1_save_discipline :
    (∀ (ctx : SystemContext) (store : Prefs) (doc : BleDoc)
       (envs : List TestEnv), doc.cmd = "test_wifi" →
        countSaves (commandRun ctx store doc envs).fx = 0) ∧
    (∀ (ctx : SystemContext) (store : Prefs) (doc : BleDoc)
       (envs : List TestEnv) (cfg : AppConfig), doc.cmd = "config" →
        parseConfigFromJson doc = some cfg →
        countSaves (commandRun ctx store doc envs).fx = 1 ∧
        countSaves (handleBleCommand ctx store doc).fx = 1) := by
  constructor
  · intro ctx store doc envs h
    unfold commandRun
    simp only [handleBleCommand, h]
    norm_num
    cases hs : doc.ssid <;> cases hp : doc.pass <;>
      simp [countSaves, countSaves_runTestingWifi]
  · intro ctx store doc envs cfg h hparse
    unfold commandRun
    simp only [handleBleCommand, h]
    norm_num
    rw [hparse]
    by_cases hsv : (ConfigHandler.save cfg store).1 = true <;>
      simp [hsv, countSaves, countSaves_runTestingWifi]

/-- Counterexample to C1 as stated: a `config` command whose trial
connection times out (never succeeds) still has exactly one
`ConfigHandler::save` call in its trace — the save is performed before the
trial, not "only if the trial Wi-Fi connection succeeds". -/
theorem c1_claim_counterexample :
    countSaves (commandRun fixtureCtx emptyPrefs configDocFix
        [{ now := 0, connected := false },
         { now := 16000, connected := false }]).fx = 1 ∧
    (commandRun fixtureCtx emptyPrefs configDocFix
        [{ now := 0, connected := false },
         { now := 16000, connected := false }]).state =
      SystemState.BLE_CONFIGURING ∧
    Effect.result "config" false (some "wifi_timeout")
        (some "Connessione WiFi fallita") ∈
      (commandRun fixtureCtx emptyPrefs configDocFix
        [{ now := 0, connected := false },
         { now := 16000, connected := false }]).fx := by
  refine ⟨by rfl, by rfl, by decide⟩

/-- Witness for C1 (amended) at concrete runs of both commands. -/
theorem c1_save_discipline_witness :
    countSaves (commandRun fixtureCtx emptyPrefs testWifiDocFix
        [{ now := 0, connected := true }]).fx = 0 ∧
    countSaves (commandRun fixtureCtx emptyPrefs configDocFix
        [{ now := 0, connected := true }]).fx = 1 :=
  ⟨c1_save_discipline.1 fixtureCtx emptyPrefs testWifiDocFix _ rfl,
   (c1_save_discipline.2 fixtureCtx emptyPrefs configDocFix _
      { ssid := "net", password := "pw", params := [] } rfl rfl).1⟩

/-- C2 (amended): on a trial-connection success tick, the orchestrator
sends `status("wifi_connected",100)` and `result(cmd,true)`; it performs no
`ConfigHandler::save` and leaves the store untouched (the config was
already persisted during command handling).  If it owns persistence it
tears down the BLE link and moves to Operating (not Connecting); otherwise
it drops the trial link and returns to Configuring. -/
theorem c2_testing_wifi_success (ctx : SystemContext) (store : Prefs)
    (e : TestEnv) (h : e.connected = true) :
    Effect.status "wifi_connected" 100 ∈ (handleBleTestingWifi ctx store e).fx ∧
    Effect.result ctx.pendingCmd true none none ∈
      (handleBleTestingWifi ctx store e).fx ∧
    countSaves (handleBleTestingWifi ctx store e).fx = 0 ∧
    (handleBleTestingWifi ctx store e).store = store ∧
    (ctx.hasPendingConfig = true →
      (handleBleTestingWifi ctx store e).state = SystemState.MQTT_OPERATING ∧
      Effect.bleTeardown ∈ (handleBleTestingWifi ctx store e).fx) ∧
    (ctx.hasPendingConfig = false →
      (handleBleTestingWifi ctx store e).state = SystemState.BLE_CONFIGURING ∧
      Effect.wifiDisconnect ∈ (handleBleTestingWifi ctx store e).fx) := by
  obtain ⟨dev, hp, pcfg, pcmd, ws, act, lps⟩ := ctx
  cases act <;> cases hp <;>
    simp only [handleBleTestingWifi, h, Bool.not_true, Bool.not_false,
      if_true, if_false] <;>
    split_ifs <;>
    simp_all [countSaves, List.filter_append]

/-- Counterexample to C2 as stated: a successful trial entered through a
real `config` command (owns_persistence) moves to `MQTT_OPERATING` — the
Operating state, not Connecting — and its success tick performs no
`ConfigHandler::save`. -/
theorem c2_claim_counterexample :
    (commandRun fixtureCtx emptyPrefs configDocFix
        [{ now := 0, connected := true }]).state =
      SystemState.MQTT_OPERATING ∧
    SystemState.MQTT_OPERATING ≠ SystemState.WIFI_CONNECTING ∧
    countSaves (handleBleTestingWifi
        (handleBleCommand fixtureCtx emptyPrefs configDocFix).ctx
        (handleBleCommand fixtureCtx emptyPrefs configDocFix).store
        { now := 0, connected := true }).fx = 0 := by
  refine ⟨by rfl, by decide, by rfl⟩

/-- Witness for C2 (amended) on the success tick reached from a concrete
`config` command. -/
theorem c2_testing_wifi_success_witness :
    (handleBleTestingWifi
        (handleBleCommand fixtureCtx emptyPrefs configDocFix).ctx
        (handleBleCommand fixtureCtx emptyPrefs configDocFix).store
        { now := 0, connected := true }).state =
      SystemState.MQTT_OPERATING ∧
    Effect.bleTeardown ∈ (handleBleTestingWifi
        (handleBleCommand fixtureCtx emptyPrefs configDocFix).ctx
        (handleBleCommand fixtureCtx emptyPrefs configDocFix).store
        { now := 0, connected := true }).fx :=
  (c2_testing_wifi_success
      (handleBleCommand fixtureCtx emptyPrefs configDocFix).ctx
      (handleBleCommand fixtureCtx emptyPrefs configDocFix).store
      { now := 0, connected := true } rfl).2.2.2.2.1 rfl

/-- The guard phase of a classifier tick never touches the classifier
state (nor the debounce bookkeeping). -/
lemma plantPrePhase_preserves (w : PlantWorld) (e : PlantTickEnv) :
    ((plantPrePhase w e).1).currentState = w.currentState ∧
    ((plantPrePhase w e).1).lastAllOk = w.lastAllOk ∧
    ((plantPrePhase w e).1).lastConditionChangeTime =
      w.lastConditionChangeTime := by
  simp only [plantPrePhase]
  repeat' split
  all_goals exact ⟨rfl, rfl, rfl⟩

/-- C9: a classifier tick on which either no configuration with at least 8
params is loadable (and none was cached earlier) or no sensor snapshot is
available leaves the plant state unchanged; consequently, starting from
initialization, `getCurrentPlantState` stays `PLANT_HAPPY` until the first
tick with loaded thresholds and available sensor data. -/
theorem c9_state_frozen_until_ready :
    (∀ (w : PlantWorld) (e : PlantTickEnv),
       ((w.thresholds = none ∧ e.cfgLoad.bind loadThresholdsFromConfig = none) ∨
        e.sensor = none) →
       (updatePlantState w e).currentState = w.currentState) ∧
    (∀ (nvs : LightNvs) (ticks : List PlantTickEnv),
       (∀ pre t post, ticks = pre ++ t :: post →
          (((runPlant (plantInit nvs) pre).thresholds = none ∧
            t.cfgLoad.bind loadThresholdsFromConfig = none) ∨
           t.sensor = none)) →
       getCurrentPlantState (runPlant (plantInit nvs) ticks) = .PLANT_HAPPY) := by
  have step : ∀ (w : PlantWorld) (e : PlantTickEnv),
      ((w.thresholds = none ∧ e.cfgLoad.bind loadThresholdsFromConfig = none) ∨
       e.sensor = none) →
      (updatePlantState w e).currentState = w.currentState := by
    intro w e hcond
    unfold updatePlantState plantPrePhase
    rcases hth : w.thresholds with _ | th
    · rcases hc : e.cfgLoad with _ | cfg
      · simp [hth, hc]
      · rcases hl : loadThresholdsFromConfig cfg with _ | th2
        · simp [hth, hc, hl]
        · rcases hcond with ⟨_, hload⟩ | hsens
          · rw [hc] at hload
            simp [hl] at hload
          · simp [hth, hc, hl, hsens]
    · rcases hcond with ⟨hthn, _⟩ | hsens
      · rw [hth] at hthn
        exact absurd hthn (by simp)
      · simp [hth, hsens]
  refine ⟨step, ?_⟩
  intro nvs ticks
  suffices haux : ∀ (ticks : List PlantTickEnv) (w : PlantWorld),
      (∀ pre t post, ticks = pre ++ t :: post →
         (((runPlant w pre).thresholds = none ∧
           t.cfgLoad.bind loadThresholdsFromConfig = none) ∨
          t.sensor = none)) →
      (runPlant w ticks).currentState = w.currentState by
    intro hcond
    exact haux ticks (plantInit nvs) hcond
  intro ticks
  induction ticks with
  | nil => intro w _; rfl
  | cons t ts ih =>
    intro w hcond
    have h0 := hcond [] t ts rfl
    have hrest : ∀ pre s post, ts = pre ++ s :: post →
        (((runPlant (updatePlantState w t) pre).thresholds = none ∧
          s.cfgLoad.bind loadThresholdsFromConfig = none) ∨
         s.sensor = none) := by
      intro pre s post hsplit
      have := hcond (t :: pre) s post (by rw [hsplit]; rfl)
      simpa [runPlant] using this
    calc (runPlant w (t :: ts)).currentState
        = (runPlant (updatePlantState w t) ts).currentState := by
          simp [runPlant]
      _ = (updatePlantState w t).currentState := ih (updatePlantState w t) hrest
      _ = w.currentState := step w t (by simpa [runPlant] using h0)

/-- Witness for C9: one tick without sensor data from the freshly
initialized world, and a two-tick run (config unloadable, then sensor
missing) that stays Happy. -/
theorem c9_state_frozen_until_ready_witness :
    (updatePlantState (plantInit emptyLightNvs) noSensorTick).currentState =
      (plantInit emptyLightNvs).currentState ∧
    getCurrentPlantState
        (runPlant (plantInit emptyLightNvs) [noSensorTick]) =
      PlantState.PLANT_HAPPY :=
  ⟨c9_state_frozen_until_ready.1 (plantInit emptyLightNvs) noSensorTick
      (Or.inr rfl),
   c9_state_frozen_until_ready.2 emptyLightNvs [noSensorTick] (by
      intro pre t post hsplit
      cases pre with
      | nil =>
        simp only [List.nil_append, List.cons.injEq] at hsplit
        obtain ⟨ht, -⟩ := hsplit
        subst ht
        exact Or.inr rfl
      | cons a l =>
        exfalso
        simp only [List.cons_append, List.cons.injEq] at hsplit
        exact absurd hsplit.2 (by simp))⟩

set_option maxRecDepth 100000 in
/-- Counterexample to C8 as stated: `daysWithoutEnoughLight` is a
`uint8_t`.  On a concrete run of `updatePlantState` with a detected
calendar-day change on every tick and never enough light, the counter
reaches 255 after 256 ticks, and the next day change wraps it to 0 instead
of incrementing it to 256. -/
theorem c8_claim_counterexample :
    (runPlant (plantInit emptyLightNvs)
        (c8Ticks 256)).light.daysWithoutEnoughLight = 255 ∧
    (runPlant (plantInit emptyLightNvs)
        (c8Ticks 257)).light.daysWithoutEnoughLight = 0 := by
  constructor <;> rfl

/-- C8 (amended): at every detected calendar-day change during light
tracking, if `accumulated_hours_today < light_min` then
`consecutive_days_without_light` becomes `(old + 1) % 256` (the `uint8_t`
increment, wrapping to 0 from 255; an increment by exactly 1 whenever the
counter is below 255), otherwise it resets to 0; `accumulated_hours_today`
resets to 0 and the new `LightTrackingState` (new counter, zero hours, new
day) is persisted.  The in-memory hour accumulator afterwards holds only
the current tick's contribution on top of the reset. -/
theorem c8_day_rollover (lt : LightTracking) (nvs : LightNvs) (lightMin : ℚ)
    (e : PlantTickEnv) (hi : e.internet = true) (hinit : lt.initialized = true)
    (ht : e.timeValid = true) (hd : lt.lastDayOfYear ≠ -1)
    (hc : (e.dayOfYear : Int) ≠ lt.lastDayOfYear) :
    (prv_update_light_tracking lt nvs lightMin e).2 =
      { accumHours := some 0,
        lastDay := some (e.dayOfYear : Int),
        daysNoLight := some (if lt.accumulatedHours < lightMin then
            (lt.daysWithoutEnoughLight + 1) % 256 else 0) } ∧
    (prv_update_light_tracking lt nvs lightMin e).1.daysWithoutEnoughLight =
      (if lt.accumulatedHours < lightMin then
        (lt.daysWithoutEnoughLight + 1) % 256 else 0) ∧
    (prv_update_light_tracking lt nvs lightMin e).1.lastDayOfYear =
      (e.dayOfYear : Int) ∧
    (prv_update_light_tracking lt nvs lightMin e).1.accumulatedHours =
      (match e.sensor with
       | some data =>
         if data.lightDetected then ((e.nowMs - lt.lastUpdateMs : ℕ) : ℚ) / 3600000
         else 0
       | none => 0) := by
  unfold prv_update_light_tracking
  simp only [hi, hinit, ht, Bool.not_true, Bool.false_eq_true, if_false]
  rcases hs : e.sensor with _ | data
  · simp [hd, hc]
  · by_cases hl : data.lightDetected = true <;>
      simp [hd, hc, hl]

/-- Witness for C8 (amended) at a concrete rollover tick, both with the
counter at 3 (incrementing to 4) and via the general form. -/
theorem c8_day_rollover_witness :
    (prv_update_light_tracking
        { accumulatedHours := 2, lastDayOfYear := 3,
          daysWithoutEnoughLight := 3, lastUpdateMs := 0,
          lastDebugPrintMs := 0, initialized := true }
        emptyLightNvs 8 (c8Env 4)).2 =
      { accumHours := some 0, lastDay := some 4,
        daysNoLight := some (if (2 : ℚ) < 8 then (3 + 1) % 256 else 0) } :=
  (c8_day_rollover _ emptyLightNvs 8 (c8Env 4) rfl rfl rfl
      (by decide) (by decide)).1

/-- The transition phase records `allOk` as the new `lastAllOk`. -/
lemma plantSmPhase_lastAllOk (w : PlantWorld) (allOk : Bool) (now : ℕ)
    (tf : Bool) : (plantSmPhase w allOk now tf).lastAllOk = allOk := by
  simp only [plantSmPhase]
  cases w.currentState <;> split_ifs <;> rfl

/-- The transition phase updates the condition-change timestamp to `now`
exactly when the condition flips. -/
lemma plantSmPhase_lastChange (w : PlantWorld) (allOk : Bool) (now : ℕ)
    (tf : Bool) :
    (plantSmPhase w allOk now tf).lastConditionChangeTime =
      (if allOk ≠ w.lastAllOk then now else w.lastConditionChangeTime) := by
  simp only [plantSmPhase]
  cases w.currentState <;> split_ifs <;> rfl

/-- A tick whose guard phase computes `allOk = b` records `b` in
`lastAllOk`. -/
lemma updatePlantState_lastAllOk_of_some (w : PlantWorld) (e : PlantTickEnv)
    (b : Bool) (h : allOkAt w e = some b) :
    (updatePlantState w e).lastAllOk = b := by
  unfold updatePlantState
  unfold allOkAt at h
  rcases hp : plantPrePhase w e with ⟨w1, ob⟩
  rw [hp] at h
  cases ob with
  | none => exact absurd h (by simp)
  | some b2 =>
    simp only at h
    cases h
    exact plantSmPhase_lastAllOk w1 b e.nowMs e.dyingTimerFired

/-- A tick that returns early changes none of the transition bookkeeping. -/
lemma updatePlantState_of_none (w : PlantWorld) (e : PlantTickEnv)
    (h : allOkAt w e = none) :
    (updatePlantState w e).currentState = w.currentState ∧
    (updatePlantState w e).lastAllOk = w.lastAllOk ∧
    (updatePlantState w e).lastConditionChangeTime =
      w.lastConditionChangeTime := by
  unfold updatePlantState
  unfold allOkAt at h
  have hkeep := plantPrePhase_preserves w e
  rcases hp : plantPrePhase w e with ⟨w1, ob⟩
  rw [hp] at h hkeep
  cases ob with
  | none => exact hkeep
  | some b2 => exact absurd h (by simp)

/-- After any tick, the condition-change timestamp is either unchanged or
that tick's `millis()` reading. -/
lemma updatePlantState_lastChange_cases (w : PlantWorld) (e : PlantTickEnv) :
    (updatePlantState w e).lastConditionChangeTime =
        w.lastConditionChangeTime ∨
    (updatePlantState w e).lastConditionChangeTime = e.nowMs := by
  unfold updatePlantState
  have hkeep := plantPrePhase_preserves w e
  rcases hp : plantPrePhase w e with ⟨w1, ob⟩
  rw [hp] at hkeep
  cases ob with
  | none => exact Or.inl hkeep.2.2
  | some b =>
    simp only
    rw [plantSmPhase_lastChange]
    split_ifs
    · exact Or.inr rfl
    · exact Or.inl hkeep.2.2

/-- A tick that changes `lastAllOk` sets the condition-change timestamp to
its own `millis()` reading. -/
lemma updatePlantState_flip_lastChange (w : PlantWorld) (e : PlantTickEnv)
    (h : (updatePlantState w e).lastAllOk ≠ w.lastAllOk) :
    (updatePlantState w e).lastConditionChangeTime = e.nowMs := by
  unfold updatePlantState at h ⊢
  have hkeep := plantPrePhase_preserves w e
  rcases hp : plantPrePhase w e with ⟨w1, ob⟩
  rw [hp] at h hkeep
  cases ob with
  | none => exact absurd hkeep.2.1 h
  | some b =>
    simp only at h ⊢
    have h1 : w1.lastAllOk = w.lastAllOk := hkeep.2.1
    rw [plantSmPhase_lastAllOk] at h
    rw [plantSmPhase_lastChange]
    exact if_pos (fun hb => h (hb.trans h1))

/-- Over any run, the condition-change timestamp is either the starting one
or the `millis()` reading of some processed tick. -/
lemma runPlant_lastChange_cases (ts : List PlantTickEnv) :
    ∀ (w : PlantWorld),
      (runPlant w ts).lastConditionChangeTime = w.lastConditionChangeTime ∨
      ∃ u ∈ ts, (runPlant w ts).lastConditionChangeTime = u.nowMs := by
  induction ts with
  | nil => intro w; exact Or.inl rfl
  | cons t ts ih =>
    intro w
    have hrun : runPlant w (t :: ts) = runPlant (updatePlantState w t) ts := rfl
    rw [hrun]
    rcases ih (updatePlantState w t) with hsame | ⟨u, hu, hval⟩
    · rcases updatePlantState_lastChange_cases w t with h1 | h1
      · exact Or.inl (hsame.trans h1)
      · exact Or.inr ⟨t, List.mem_cons_self t ts, hsame.trans h1⟩
    · exact Or.inr ⟨u, List.mem_cons_of_mem t hu, hval⟩

/-- If a run changes `lastAllOk`, the final condition-change timestamp is
the `millis()` reading of some processed tick. -/
lemma runPlant_flip_time (ts : List PlantTickEnv) :
    ∀ (w : PlantWorld), (runPlant w ts).lastAllOk ≠ w.lastAllOk →
      ∃ u ∈ ts, (runPlant w ts).lastConditionChangeTime = u.nowMs := by
  induction ts with
  | nil => intro w h; exact absurd rfl h
  | cons t ts ih =>
    intro w h
    have hrun : runPlant w (t :: ts) = runPlant (updatePlantState w t) ts := rfl
    rw [hrun] at h ⊢
    by_cases hmid :
        (runPlant (updatePlantState w t) ts).lastAllOk =
          (updatePlantState w t).lastAllOk
    · have hflip : (updatePlantState w t).lastAllOk ≠ w.lastAllOk := by
        rw [← hmid]; exact h
      have hlc := updatePlantState_flip_lastChange w t hflip
      rcases runPlant_lastChange_cases ts (updatePlantState w t) with hsame | ⟨u, hu, hval⟩
      · exact ⟨t, List.mem_cons_self t ts, hsame.trans hlc⟩
      · exact ⟨u, List.mem_cons_of_mem t hu, hval⟩
    · obtain ⟨u, hu, hval⟩ := ih (updatePlantState w t) hmid
      exact ⟨u, List.mem_cons_of_mem t hu, hval⟩

/-- Run invariant behind C7: while the recorded condition is "bad"
(`lastAllOk = false`), every processed tick that computed `allOk = true`
happened no later than the recorded condition-change timestamp. -/
lemma runPlant_trueTick_bound (ts : List PlantTickEnv) :
    ∀ (w0 : PlantWorld),
      ts.Pairwise (fun a b => a.nowMs ≤ b.nowMs) →
      (runPlant w0 ts).lastAllOk = false →
      ∀ pre t post, ts = pre ++ t :: post →
        allOkAt (runPlant w0 pre) t = some true →
        t.nowMs ≤ (runPlant w0 ts).lastConditionChangeTime := by
  induction ts with
  | nil =>
    intro w0 _ _ pre t post hsplit
    exact absurd hsplit (by simp)
  | cons t0 ts ih =>
    intro w0 hmono hfalse pre t post hsplit htrue
    have hrun : runPlant w0 (t0 :: ts) = runPlant (updatePlantState w0 t0) ts := rfl
    rw [hrun] at hfalse ⊢
    cases pre with
    | nil =>
      simp only [List.nil_append, List.cons.injEq] at hsplit
      obtain ⟨ht, hts⟩ := hsplit
      rw [ht, hts] at hfalse hmono ⊢
      have htrue' : allOkAt w0 t = some true := htrue
      have hA : (updatePlantState w0 t).lastAllOk = true :=
        updatePlantState_lastAllOk_of_some w0 t true htrue'
      have hne : (runPlant (updatePlantState w0 t) post).lastAllOk ≠
          (updatePlantState w0 t).lastAllOk := by
        rw [hA, hfalse]
        exact Bool.false_ne_true
      obtain ⟨u, hu, hval⟩ := runPlant_flip_time post (updatePlantState w0 t) hne
      rw [hval]
      exact (List.pairwise_cons.mp hmono).1 u hu
    | cons p pre' =>
      simp only [List.cons_append, List.cons.injEq] at hsplit
      obtain ⟨hp, hts⟩ := hsplit
      subst hp
      have htrue' : allOkAt (runPlant (updatePlantState w0 t0) pre') t =
          some true := htrue
      exact ih (updatePlantState w0 t0) (List.pairwise_cons.mp hmono).2
        hfalse pre' t post hts htrue'

/-- A `PLANT_HAPPY → PLANT_ANGRY` step requires the freshly computed
`allOk` to be false, the previously recorded condition to be bad already,
and the full debounce window to have elapsed since the recorded change. -/
lemma plantSmPhase_happy_to_angry (w : PlantWorld) (allOk : Bool) (now : ℕ)
    (tf : Bool) (hh : w.currentState = .PLANT_HAPPY)
    (ha : (plantSmPhase w allOk now tf).currentState = .PLANT_ANGRY) :
    allOk = false ∧ w.lastAllOk = false ∧
    STATE_DEBOUNCE_MS ≤ now - w.lastConditionChangeTime := by
  unfold plantSmPhase at ha
  rw [hh] at ha
  simp only at ha
  by_cases hcond : allOk = false ∧ STATE_DEBOUNCE_MS ≤
      now - (if allOk ≠ w.lastAllOk then now else w.lastConditionChangeTime)
  · obtain ⟨hok, hdeb⟩ := hcond
    by_cases hflip : allOk ≠ w.lastAllOk
    · rw [if_pos hflip] at hdeb
      simp [STATE_DEBOUNCE_MS] at hdeb
    · rw [if_neg hflip] at hdeb
      push_neg at hflip
      exact ⟨hok, by rw [← hflip, hok], hdeb⟩
  · rw [if_neg hcond] at ha
    exact absurd ha (by simp [hh])

/-- C7: the classifier leaves Happy for Angry only after `!all_ok` has held
for the entire debounce window: whenever a tick turns the state from
`PLANT_HAPPY` to `PLANT_ANGRY`, that tick computed `all_ok = false`, the
debounce window had fully elapsed since the recorded condition change, and
every earlier tick that computed `all_ok = true` lies at least a full
debounce window before the transition tick — a single recovering tick
resets the timestamp, so no partial credit survives it. -/
theorem c7_happy_angry_debounce (nvs : LightNvs)
    (ticks : List PlantTickEnv) (e : PlantTickEnv)
    (hmono : (ticks ++ [e]).Pairwise (fun a b => a.nowMs ≤ b.nowMs))
    (hhappy : (runPlant (plantInit nvs) ticks).currentState = .PLANT_HAPPY)
    (hangry : (updatePlantState (runPlant (plantInit nvs) ticks) e).currentState
        = .PLANT_ANGRY) :
    allOkAt (runPlant (plantInit nvs) ticks) e = some false ∧
    STATE_DEBOUNCE_MS ≤
      e.nowMs - (runPlant (plantInit nvs) ticks).lastConditionChangeTime ∧
    ∀ pre t post, ticks = pre ++ t :: post →
      allOkAt (runPlant (plantInit nvs) pre) t = some true →
      STATE_DEBOUNCE_MS ≤ e.nowMs - t.nowMs := by
  have hkeep := plantPrePhase_preserves (runPlant (plantInit nvs) ticks) e
  have hok : allOkAt (runPlant (plantInit nvs) ticks) e = some false ∧
      (runPlant (plantInit nvs) ticks).lastAllOk = false ∧
      STATE_DEBOUNCE_MS ≤
        e.nowMs - (runPlant (plantInit nvs) ticks).lastConditionChangeTime := by
    unfold updatePlantState at hangry
    unfold allOkAt
    rcases hp : plantPrePhase (runPlant (plantInit nvs) ticks) e with ⟨w1, ob⟩
    rw [hp] at hangry hkeep
    cases ob with
    | none =>
      have hk1 : w1.currentState =
          (runPlant (plantInit nvs) ticks).currentState := hkeep.1
      have hang2 : w1.currentState = PlantState.PLANT_ANGRY := hangry
      exact absurd (hhappy.symm.trans (hk1.symm.trans hang2)) (by simp)
    | some b =>
      simp only at hangry
      have hk1 : w1.currentState =
          (runPlant (plantInit nvs) ticks).currentState := hkeep.1
      have hk2 : w1.lastAllOk =
          (runPlant (plantInit nvs) ticks).lastAllOk := hkeep.2.1
      have hk3 : w1.lastConditionChangeTime =
          (runPlant (plantInit nvs) ticks).lastConditionChangeTime := hkeep.2.2
      have hb := plantSmPhase_happy_to_angry w1 b e.nowMs e.dyingTimerFired
        (hk1.trans hhappy) hangry
      refine ⟨congrArg some hb.1, ?_, ?_⟩
      · rw [← hk2]; exact hb.2.1
      · rw [← hk3]; exact hb.2.2
  refine ⟨hok.1, hok.2.2, ?_⟩
  intro pre t post hsplit htrue
  have hmt : ticks.Pairwise (fun a b => a.nowMs ≤ b.nowMs) :=
    (List.pairwise_append.mp hmono).1
  have hbound := runPlant_trueTick_bound ticks (plantInit nvs) hmt hok.2.1
    pre t post hsplit htrue
  calc STATE_DEBOUNCE_MS
      ≤ e.nowMs - (runPlant (plantInit nvs) ticks).lastConditionChangeTime :=
        hok.2.2
    _ ≤ e.nowMs - t.nowMs := Nat.sub_le_sub_left hbound e.nowMs

/-- Witness for C7: a two-tick run in which the condition is bad from time
0 and the transition fires exactly at the debounce window. -/
theorem c7_happy_angry_debounce_witness :
    allOkAt (runPlant (plantInit emptyLightNvs) [hotTick 0]) (hotTick 60000) =
      some false ∧
    STATE_DEBOUNCE_MS ≤ (hotTick 60000).nowMs -
      (runPlant (plantInit emptyLightNvs)
        [hotTick 0]).lastConditionChangeTime :=
  ⟨(c7_happy_angry_debounce emptyLightNvs [hotTick 0] (hotTick 60000)
      (by simp [hotTick]) rfl rfl).1,
   (c7_happy_angry_debounce emptyLightNvs [hotTick 0] (hotTick 60000)
      (by simp [hotTick]) rfl rfl).2.1⟩

end PlantMonitor
